import Mathlib

/-!
Verification of the DeferLink candidate-matching engine.

Shallow embedding of the matching, resolution and weight-adaptation code
(`app/core/intelligent_matcher.py`, `app/deeplink_handler.py`,
`app/api/deeplinks.py`, `app/database.py`) into Lean.

Modelling conventions:
* Python strings are embedded as `List Char` (`Str`); a missing/falsy
  attribute value is the empty list (the handler normalises `None` to `''`
  before the matcher runs).  String literals are written `"...".data`.
* Python floats are embedded as `ℚ`; every constant of the source
  (19/20, 1/20, ...) is exactly representable.
* The wall clock (`datetime.now()`) is made an explicit parameter:
  `now : ℚ` (seconds) and `hour : ℕ` (local hour of day).
* The two memoisation caches of the matcher only replay the value first
  computed for a key, so the comparators are embedded cache-free.
* Python dicts whose key set is data-dependent (the weight vector, the
  per-component score dicts) are embedded as association lists
  (`List (Str × ℚ)`) with dict assignment = overwrite-or-append.
* The storage collaborator (`db_manager`) is embedded as an explicit
  value: the candidate query result is an `Except Unit (List Session)`
  (`Except.error` = the storage call raised), and the sessions table is a
  `List SessionRow` transformed by the UPDATE of `mark_session_resolved`.
-/

namespace DeferLink

attribute [local semireducible] Rat.add Rat.mul Rat.sub Rat.inv Rat.ofScientific

/-- Python strings, embedded as lists of characters. -/
abbrev Str := List Char

/-- ASCII lower-casing of one character (Python `str.lower`, ASCII part). -/
def lowerChar (c : Char) : Char :=
  if 'A' ≤ c ∧ c ≤ 'Z' then Char.ofNat (c.toNat + 32) else c

/-- Python `str.lower()`. -/
def toLower (s : Str) : Str := s.map lowerChar

/-- ASCII whitespace, for Python `str.strip` / `str.split()`. -/
def isSpace (c : Char) : Bool :=
  c = ' ' ∨ c = '\t' ∨ c = '\n' ∨ c = '\r' ∨ c = '\x0b' ∨ c = '\x0c'

/-- Python `str.strip()`: drop leading and trailing whitespace. -/
def strip (s : Str) : Str :=
  ((s.dropWhile (fun c => isSpace c)).reverse.dropWhile (fun c => isSpace c)).reverse

/-- ASCII decimal digit. -/
def isDigit (c : Char) : Bool := '0' ≤ c ∧ c ≤ '9'

/-- Digit value of an ASCII digit character. -/
def digitVal (c : Char) : ℕ := c.toNat - '0'.toNat

/-- Value of a (non-empty, all-digit) decimal numeral. -/
def digitsVal (s : Str) : ℕ := s.foldl (fun acc c => 10 * acc + digitVal c) 0

/-- Python `int(text)`: optional surrounding whitespace, optional sign,
then at least one decimal digit; anything else raises `ValueError`
(embedded as `none`). -/
def parseInt (s : Str) : Option ℤ :=
  let t := strip s
  match t with
  | [] => none
  | c :: rest =>
    let signDigits : ℤ × Str :=
      if c = '-' then (-1, rest) else if c = '+' then (1, rest) else (1, t)
    if signDigits.2 ≠ [] ∧ signDigits.2.all (fun d => isDigit d) then
      some (signDigits.1 * (digitsVal signDigits.2 : ℤ))
    else none

/-- Python `s.split(sep)` for a single-character separator: splits at every
occurrence, keeping empty pieces. -/
def splitOnChar (sep : Char) (l : Str) : List Str :=
  l.foldr
    (fun ch acc =>
      if ch = sep then [] :: acc
      else
        match acc with
        | [] => [[ch]]
        | w :: ws => (ch :: w) :: ws)
    [[]]

/-- Python `s.split()` (no argument): split on whitespace runs, dropping
empty pieces (equivalently: split at every whitespace character, then
discard the empty fragments). -/
def splitWs (l : Str) : List Str :=
  (l.foldr
      (fun ch acc =>
        if isSpace ch then [] :: acc
        else
          match acc with
          | [] => [[ch]]
          | w :: ws => (ch :: w) :: ws)
      [[]]).filter (fun w => w ≠ [])

/-- `' '.join ws` (Python). -/
def joinSpace (ws : List Str) : Str := List.intercalate [' '] ws

/-- First value bound to a key in an association-list dict
(Python `d.get(k)` / `d[k]`). -/
def lookupD {α : Type} (l : List (Str × α)) (k : Str) : Option α :=
  (l.find? (fun p => p.1 = k)).map (fun p => p.2)

/-- Python dict assignment `d[k] = v`: overwrite in place if the key is
present, otherwise append. -/
def insertA (l : List (Str × ℚ)) (k : Str) (v : ℚ) : List (Str × ℚ) :=
  if l.any (fun p => p.1 = k) then
    l.map (fun p => if p.1 = k then (k, v) else p)
  else l ++ [(k, v)]

/-! ## Data model -/

/-- App-side query fingerprint, as normalised by
`DeepLinkHandler._normalize_fingerprint`: the five matching attributes,
missing values mapped to `''` (= `[]`). -/
structure Fingerprint where
  timezone : Str
  screen_size : Str
  language : Str
  model : Str
  user_agent : Str
deriving DecidableEq

/-- One candidate row as returned by the candidate query of
`DeepLinkHandler.find_matching_session` (open, unexpired sessions).
`created_at` is the parsed creation timestamp in seconds; `none` stands
for an absent or unparsable timestamp. -/
structure Session where
  session_id : Str
  promo_id : Str
  domain : Str
  timezone : Str
  screen_size : Str
  language : Str
  model : Str
  user_agent : Str
  created_at : Option ℚ
deriving DecidableEq

/-! ## Feature comparators (`IntelligentMatcher._*_similarity`) -/

/-- `equivalent_zones` table of `_timezone_similarity`. -/
def equivalentZones : List (Str × List Str) :=
  [("Europe/Moscow".data,
    ["Europe/Volgograd".data, "Europe/Kirov".data, "Europe/Simferopol".data]),
   ("America/New_York".data,
    ["America/Detroit".data, "America/Kentucky/Louisville".data, "America/Montreal".data]),
   ("Europe/London".data,
    ["Europe/Belfast".data, "Europe/Guernsey".data, "Europe/Jersey".data]),
   ("Asia/Shanghai".data,
    ["Asia/Chongqing".data, "Asia/Harbin".data, "Asia/Kashgar".data]),
   ("America/Los_Angeles".data,
    ["America/Vancouver".data, "America/Tijuana".data])]

/-- The `for primary, equivalents in equivalent_zones.items()` scan:
true iff some entry lists the two zones as primary/equivalent in either
orientation (every hit returns the same 19/20, so `any` is faithful). -/
def eqZoneCheck (b a : Str) : Bool :=
  equivalentZones.any (fun p => (b = p.1 ∧ a ∈ p.2) ∨ (a = p.1 ∧ b ∈ p.2))

/-- `utc_offset_map` of `_timezone_similarity`. -/
def utcOffsets : List (Str × ℤ) :=
  [("UTC".data, 0), ("Europe/London".data, 0), ("Europe/Moscow".data, 3),
   ("America/New_York".data, -5), ("America/Los_Angeles".data, -8),
   ("Asia/Tokyo".data, 9), ("Asia/Shanghai".data, 8)]

/-- `IntelligentMatcher._timezone_similarity` (cache-free). -/
def timezoneSimilarity (b a : Str) : ℚ :=
  if b = [] ∨ a = [] then 1/2
  else if b = a then 1
  else if eqZoneCheck b a then 19/20
  else
    match lookupD utcOffsets b, lookupD utcOffsets a with
    | some bo, some ao => if bo = ao then 4/5 else 0
    | _, _ => 0

/-- `parse_screen` inside `_screen_similarity`: map `x`/`,` to `*`, split,
`int()` the first two pieces; any failure gives `(None, None)`. -/
def parseScreen (s : Str) : Option ℤ × Option ℤ :=
  let t := s.map (fun c => if c = 'x' then '*' else if c = ',' then '*' else c)
  match splitOnChar '*' t with
  | p0 :: p1 :: _ =>
    match parseInt p0, parseInt p1 with
    | some w, some h => (some w, some h)
    | _, _ => (none, none)
  | _ => (none, none)

/-- `within_tolerance` inside `_screen_similarity` (rotation-tolerant). -/
def withinTol (w1 h1 w2 h2 tol : ℤ) : Bool :=
  (|w1 - w2| ≤ tol ∧ |h1 - h2| ≤ tol) ∨ (|w1 - h2| ≤ tol ∧ |h1 - w2| ≤ tol)

/-- `get_aspect_ratio` inside `_screen_similarity`. -/
def aspectOf (w h : ℤ) : ℚ :=
  if 0 < min w h then (max w h : ℚ) / (min w h : ℚ) else 0

/-- `IntelligentMatcher._screen_similarity`.  A parsed dimension equal to 0
fails Python's `all([...])` truthiness check exactly like `None` does. -/
def screenSimilarity (b a : Str) : ℚ :=
  if b = [] ∨ a = [] then 3/10
  else
    match parseScreen b, parseScreen a with
    | (some bw, some bh), (some aw, some ah) =>
      if bw = 0 ∨ bh = 0 ∨ aw = 0 ∨ ah = 0 then 3/10
      else if (bw = aw ∧ bh = ah) ∨ (bw = ah ∧ bh = aw) then 1
      else if withinTol bw bh aw ah 60 then 19/20
      else if withinTol bw bh aw ah 100 then 17/20
      else
        if 0 < aspectOf bw bh ∧ 0 < aspectOf aw ah then
          if |aspectOf bw bh - aspectOf aw ah| < 1/20 then 7/10
          else if |aspectOf bw bh - aspectOf aw ah| < 3/20 then 1/2
          else 0
        else 0
    | _, _ => 3/10

/-- The `mappings` table of `normalize_language`. -/
def languageMappings : List (Str × Str) :=
  [("en".data, "en_us".data), ("ru".data, "ru_ru".data), ("de".data, "de_de".data),
   ("fr".data, "fr_fr".data), ("es".data, "es_es".data), ("it".data, "it_it".data),
   ("ja".data, "ja_jp".data), ("ko".data, "ko_kr".data), ("zh".data, "zh_cn".data)]

/-- `normalize_language` inside `_language_similarity`:
`lang.replace('-', '_').lower()`, then expand a bare code via `mappings`. -/
def normalizeLanguage (lang : Str) : Str :=
  let l := toLower (lang.map (fun c => if c = '-' then '_' else c))
  match lookupD languageMappings l with
  | some m => m
  | none => l

/-- `lang.split('_')[0]`: the base-language part of a locale. -/
def mainLang (l : Str) : Str := l.takeWhile (fun c => c != '_')

/-- The `related_languages` table of `_language_similarity`. -/
def relatedLanguages : List (Str × List Str) :=
  [("en".data, ["en_us".data, "en_gb".data, "en_au".data, "en_ca".data]),
   ("es".data, ["es_es".data, "es_mx".data, "es_ar".data, "es_co".data]),
   ("fr".data, ["fr_fr".data, "fr_ca".data, "fr_be".data, "fr_ch".data]),
   ("de".data, ["de_de".data, "de_at".data, "de_ch".data]),
   ("pt".data, ["pt_pt".data, "pt_br".data]),
   ("zh".data, ["zh_cn".data, "zh_tw".data, "zh_hk".data])]

/-- The `for main_lang, variants in related_languages.items()` scan. -/
def relatedCheck (nb na : Str) : Bool :=
  relatedLanguages.any (fun p => nb ∈ p.2 ∧ na ∈ p.2)

/-- `IntelligentMatcher._language_similarity`. -/
def languageSimilarity (b0 a0 : Str) : ℚ :=
  if toLower b0 = [] ∨ toLower a0 = [] then 2/5
  else if toLower b0 = toLower a0 then 1
  else if normalizeLanguage (toLower b0) = normalizeLanguage (toLower a0) then 19/20
  else if mainLang (normalizeLanguage (toLower b0)) = mainLang (normalizeLanguage (toLower a0))
    then 4/5
  else if relatedCheck (normalizeLanguage (toLower b0)) (normalizeLanguage (toLower a0))
    then 7/10
  else 0

/-- `device_mappings` table of `_device_similarity`. -/
def deviceMappings : List (Str × List Str) :=
  [("iphone14,2".data, ["iphone 13 pro".data, "iphone13,2".data, "a2638".data, "a2639".data]),
   ("iphone14,3".data, ["iphone 13 pro max".data, "iphone13,3".data, "a2644".data, "a2645".data]),
   ("iphone13,2".data, ["iphone 12".data, "iphone12,1".data, "a2172".data, "a2402".data]),
   ("iphone13,3".data, ["iphone 12 pro max".data, "iphone12,5".data, "a2342".data, "a2410".data]),
   ("sm-g998b".data, ["galaxy s21 ultra".data, "samsung galaxy s21 ultra".data, "sm-g998u".data]),
   ("sm-g991b".data, ["galaxy s21".data, "samsung galaxy s21".data, "sm-g991u".data]),
   ("sm-g996b".data, ["galaxy s21+".data, "samsung galaxy s21+".data, "sm-g996u".data]),
   ("pixel 6".data, ["pixel 6a".data, "google pixel 6".data, "gf5kq".data, "gb7n6".data]),
   ("pixel 7".data, ["pixel 7a".data, "google pixel 7".data, "gvt4a".data, "gp4bc".data]),
   ("oneplus 9".data, ["1+9".data, "op9".data, "le2113".data, "le2115".data]),
   ("oneplus 10".data, ["1+10".data, "op10".data, "ne2210".data, "ne2215".data])]

/-- The `for canonical, variants in device_mappings.items()` scan of
`_device_similarity`: first hit returns 19/20 (canonical vs variant) or
9/10 (variant vs variant). -/
def deviceMapLoop : List (Str × List Str) → Str → Str → Option ℚ
  | [], _, _ => none
  | p :: rest, b, a =>
    if b = p.1 ∧ a ∈ p.2 then some (19/20)
    else if a = p.1 ∧ b ∈ p.2 then some (19/20)
    else if b ∈ p.2 ∧ a ∈ p.2 then some (9/10)
    else deviceMapLoop rest b a

/-- `stop_words` of `_advanced_string_similarity`. -/
def stopWords : List Str :=
  ["samsung".data, "apple".data, "google".data, "oneplus".data, "xiaomi".data]

/-- Python regex `\w` (ASCII part): letter, digit or underscore. -/
def isWordChar (c : Char) : Bool :=
  ('a' ≤ c ∧ c ≤ 'z') ∨ ('A' ≤ c ∧ c ≤ 'Z') ∨ ('0' ≤ c ∧ c ≤ '9') ∨ c = '_'

/-- `preprocess` inside `_advanced_string_similarity`:
`re.sub(r'[^\w\s]', '', s.lower())`, drop brand stop-words, re-join. -/
def preprocess (s : Str) : Str :=
  joinSpace
    (((splitWs ((toLower s).filter (fun c => isWordChar c || isSpace c))).filter
      (fun w => !(decide (w ∈ stopWords)))))

/-- `len(A ∩ B) / len(A ∪ B) if A ∪ B else 0.0`. -/
def jaccardQ {α : Type} [DecidableEq α] (A B : Finset α) : ℚ :=
  if A ∪ B = ∅ then 0 else ((A ∩ B).card : ℚ) / ((A ∪ B).card : ℚ)

/-- `IntelligentMatcher._char_similarity`. -/
def charSimilarity (s1 s2 : Str) : ℚ :=
  if s1 = [] ∨ s2 = [] then 0
  else jaccardQ (toLower s1).toFinset (toLower s2).toFinset

/-- `IntelligentMatcher._advanced_string_similarity`. -/
def advancedStringSimilarity (s1 s2 : Str) : ℚ :=
  if s1 = [] ∨ s2 = [] then 0
  else
    if (splitWs (preprocess s1)).toFinset = ∅ ∧ (splitWs (preprocess s2)).toFinset = ∅ then
      (if s1 = s2 then 1 else 0)
    else
      jaccardQ (splitWs (preprocess s1)).toFinset (splitWs (preprocess s2)).toFinset * 7/10 +
        charSimilarity (preprocess s1) (preprocess s2) * 3/10

/-- `IntelligentMatcher._device_similarity` (cache-free). -/
def deviceSimilarity (b0 a0 : Str) : ℚ :=
  if strip (toLower b0) = [] ∨ strip (toLower a0) = [] then 2/5
  else if strip (toLower b0) = strip (toLower a0) then 1
  else
    match deviceMapLoop deviceMappings (strip (toLower b0)) (strip (toLower a0)) with
    | some v => v
    | none =>
      if advancedStringSimilarity (strip (toLower b0)) (strip (toLower a0)) > 17/20 then 4/5
      else if advancedStringSimilarity (strip (toLower b0)) (strip (toLower a0)) > 7/10 then 3/5
      else if advancedStringSimilarity (strip (toLower b0)) (strip (toLower a0)) > 1/2 then 2/5
      else 0

/-- The components `extract_ua_components` pulls out of a user-agent:
six boolean platform flags (always all six present) and up to two
version tokens. -/
structure UAComponents where
  webkit : Bool
  mobile : Bool
  iphone : Bool
  android : Bool
  safari : Bool
  chrome : Bool
  iosVersion : Option Str
  androidVersion : Option Str
deriving DecidableEq

/-- Python `needle in hay` on strings: substring containment. -/
def isSubstring (needle : Str) : Str → Bool
  | [] => needle.isPrefixOf []
  | c :: t => needle.isPrefixOf (c :: t) || isSubstring needle t

/-- Try the regex `pre(\d+)[_.](\d+)` anchored at the start of `s`,
returning `g1.g2` on success. -/
def matchVersionAt (pre : Str) (s : Str) : Option Str :=
  if pre.isPrefixOf s then
    match (s.drop pre.length).takeWhile (fun c => isDigit c),
        (s.drop pre.length).dropWhile (fun c => isDigit c) with
    | [], _ => none
    | d1, sep :: rest2 =>
      if sep = '_' ∨ sep = '.' then
        match rest2.takeWhile (fun c => isDigit c) with
        | [] => none
        | d2 => some (d1 ++ '.' :: d2)
      else none
    | _, [] => none
  else none

/-- `re.search` of the version pattern: leftmost match wins. -/
def searchVersion (pre : Str) : Str → Option Str
  | [] => none
  | c :: t =>
    match matchVersionAt pre (c :: t) with
    | some v => some v
    | none => searchVersion pre t

/-- `extract_ua_components` inside `_user_agent_similarity`. -/
def extractUAComponents (ua : Str) : UAComponents :=
  { webkit := isSubstring "webkit".data ua
    mobile := isSubstring "mobile".data ua
    iphone := isSubstring "iphone".data ua
    android := isSubstring "android".data ua
    safari := isSubstring "safari".data ua
    chrome := isSubstring "chrome".data ua
    iosVersion := searchVersion "os ".data ua
    androidVersion := searchVersion "android ".data ua }

/-- Matching boolean flags (both sides always carry the same six keys). -/
def boolMatches (b a : UAComponents) : ℕ :=
  (if b.webkit = a.webkit then 1 else 0) + (if b.mobile = a.mobile then 1 else 0) +
  (if b.iphone = a.iphone then 1 else 0) + (if b.android = a.android then 1 else 0) +
  (if b.safari = a.safari then 1 else 0) + (if b.chrome = a.chrome then 1 else 0)

/-- Version keys present on both sides. -/
def versionTotal (b a : UAComponents) : ℕ :=
  (match b.iosVersion, a.iosVersion with | some _, some _ => 1 | _, _ => 0) +
  (match b.androidVersion, a.androidVersion with | some _, some _ => 1 | _, _ => 0)

/-- Version keys present on both sides with equal values. -/
def versionMatches (b a : UAComponents) : ℕ :=
  (match b.iosVersion, a.iosVersion with
   | some x, some y => if x = y then 1 else 0
   | _, _ => 0) +
  (match b.androidVersion, a.androidVersion with
   | some x, some y => if x = y then 1 else 0
   | _, _ => 0)

/-- `IntelligentMatcher._user_agent_similarity`.  `bool_total` is always 6
(both flag dicts carry the same six keys), so the denominator is `6 +
version_total`. -/
def userAgentSimilarity (b0 a0 : Str) : ℚ :=
  if toLower b0 = [] ∨ toLower a0 = [] then 3/10
  else
    if 0 < 6 + versionTotal (extractUAComponents (toLower b0)) (extractUAComponents (toLower a0))
    then
      ((boolMatches (extractUAComponents (toLower b0)) (extractUAComponents (toLower a0)) +
          versionMatches (extractUAComponents (toLower b0)) (extractUAComponents (toLower a0)) :
          ℕ) : ℚ) /
        ((6 + versionTotal (extractUAComponents (toLower b0)) (extractUAComponents (toLower a0)) :
          ℕ) : ℚ)
    else 3/10

/-! ## Temporal plausibility model
(`IntelligentMatcher._validate_temporal_patterns`).

A candidate's `created_at` is embedded as `Option ℚ` (seconds): `none`
stands for an absent **or unparsable** creation timestamp — both return
`4/5` in the source through the same early-return/`except` paths. -/

/-- `IntelligentMatcher._validate_temporal_patterns`, with `now` explicit. -/
def validateTemporalPatterns (createdAt : Option ℚ) (now : ℚ) : ℚ :=
  match createdAt with
  | none => 4/5
  | some createdTime =>
    if now - createdTime < 10 then 1/5
    else if now - createdTime < 30 then 3/5
    else if 30 ≤ now - createdTime ∧ now - createdTime ≤ 600 then 1
    else if 600 < now - createdTime ∧ now - createdTime ≤ 3600 then 9/10
    else if 3600 < now - createdTime ∧ now - createdTime ≤ 14400 then 7/10
    else if 14400 < now - createdTime ∧ now - createdTime ≤ 86400 then 2/5
    else 1/10

/-! ## Decision policy
(`_get_dynamic_threshold`, `_assess_fingerprint_quality`). -/

/-- `IntelligentMatcher._assess_fingerprint_quality`: the two reliability
tiers accumulated in source order (high: timezone 3/10, screen 1/4,
language 1/5; medium: model 3/20, user-agent 1/10); `fingerprint.get(p)`
truthiness = field non-empty. -/
def assessFingerprintQuality (fp : Fingerprint) : ℚ :=
  let params : List (Str × ℚ) :=
    [(fp.timezone, 3/10), (fp.screen_size, 1/4), (fp.language, 1/5),
     (fp.model, 3/20), (fp.user_agent, 1/10)]
  let maxScore := params.foldl (fun acc p => acc + p.2) 0
  let qualityScore := params.foldl (fun acc p => if p.1 ≠ [] then acc + p.2 else acc) 0
  if 0 < maxScore then qualityScore / maxScore else 0

/-- `IntelligentMatcher._get_dynamic_threshold`, with the local hour of
day explicit.  Base 7/10 = `confidence_thresholds['medium']`. -/
def getDynamicThreshold (hour : ℕ) (fp : Fingerprint) : ℚ :=
  let base1 : ℚ := 7/10
  let base2 := if 9 ≤ hour ∧ hour ≤ 21 then base1 + 1/20 else base1 - 1/20
  let base3 :=
    if assessFingerprintQuality fp > 4/5 then base2 - 1/20
    else if assessFingerprintQuality fp < 2/5 then base2 + 1/10
    else base2
  max (1/2) (min (9/10) base3)

/-! ## Scoring engine
(`_map_score_key_to_weight`, `_calculate_match_score`, `find_best_match`). -/

/-- The `mapping` dict of `_map_score_key_to_weight`. -/
def scoreKeyWeightMapping : List (Str × Str) :=
  [("timezone".data, "timezone".data),
   ("screen".data, "screen_dimensions".data),
   ("language".data, "language".data),
   ("device".data, "device_model".data),
   ("user_agent".data, "user_agent_similarity".data)]

/-- `IntelligentMatcher._map_score_key_to_weight`
(`mapping.get(score_key, score_key)`). -/
def mapScoreKeyToWeight (k : Str) : Str :=
  match lookupD scoreKeyWeightMapping k with
  | some v => v
  | none => k

/-- The default weight vector set in `IntelligentMatcher.__init__`. -/
def defaultWeights : List (Str × ℚ) :=
  [("timezone".data, 7/20), ("screen_dimensions".data, 1/4), ("language".data, 1/5),
   ("device_model".data, 3/20), ("user_agent_similarity".data, 1/20)]

/-- The `scores` dict built by `_calculate_match_score`, in insertion
order (`browser_session` = candidate, `app_fingerprint` = query). -/
def componentScoresOf (s : Session) (fp : Fingerprint) : List (Str × ℚ) :=
  [("timezone".data, timezoneSimilarity s.timezone fp.timezone),
   ("screen".data, screenSimilarity s.screen_size fp.screen_size),
   ("language".data, languageSimilarity s.language fp.language),
   ("device".data, deviceSimilarity s.model fp.model),
   ("user_agent".data, userAgentSimilarity s.user_agent fp.user_agent)]

/-- One step of the `for param, score in scores.items()` loop of
`_calculate_match_score` (`if weight_key in self.weights: ...`). -/
def scoreAccumStep (w : List (Str × ℚ)) (acc : ℚ × ℚ) (p : Str × ℚ) : ℚ × ℚ :=
  match lookupD w (mapScoreKeyToWeight p.1) with
  | some wt => (acc.1 + p.2 * wt, acc.2 + wt)
  | none => acc

/-- The `for param, score in scores.items()` accumulation of
`_calculate_match_score`: `(total_score, total_weight)`, from `(0, 0)`. -/
def scoreAccum (w : List (Str × ℚ)) (scores : List (Str × ℚ)) : ℚ × ℚ :=
  scores.foldl (scoreAccumStep w) (0, 0)

/-- `IntelligentMatcher._calculate_match_score`: the weight-normalised
weighted average and the component-score breakdown. -/
def calcMatchScore (w : List (Str × ℚ)) (s : Session) (fp : Fingerprint) :
    ℚ × List (Str × ℚ) :=
  (if 0 < (scoreAccum w (componentScoresOf s fp)).2 then
      (scoreAccum w (componentScoresOf s fp)).1 / (scoreAccum w (componentScoresOf s fp)).2
    else 0,
   componentScoresOf s fp)

/-- The `details` dict of a `MatchResult`: empty (no candidate ever beat
the initial 0.0), the `{'reason': ...}` shape, or the merged breakdown
`{**details, 'temporal_score': t, 'final_score': f}`. -/
inductive MatchDetails where
  | empty : MatchDetails
  | reason : Str → MatchDetails
  | scored : List (Str × ℚ) → ℚ → ℚ → MatchDetails
deriving DecidableEq

/-- `MatchResult` dataclass. -/
structure MatchResult where
  is_match : Bool
  confidence_score : ℚ
  details : MatchDetails
  session_id : Option Str
deriving DecidableEq

/-- The final score of one candidate inside `find_best_match`:
component score times temporal multiplier. -/
def finalScoreOf (w : List (Str × ℚ)) (now : ℚ) (fp : Fingerprint) (s : Session) : ℚ :=
  (calcMatchScore w s fp).1 * validateTemporalPatterns s.created_at now

/-- One iteration of the candidate loop of `find_best_match`
(`if final_score > best_score: ...`). -/
def bestStep (w : List (Str × ℚ)) (now : ℚ) (fp : Fingerprint)
    (st : Option Session × ℚ × MatchDetails) (s : Session) :
    Option Session × ℚ × MatchDetails :=
  if st.2.1 < finalScoreOf w now fp s then
    (some s,
     finalScoreOf w now fp s,
     MatchDetails.scored (calcMatchScore w s fp).2 (validateTemporalPatterns s.created_at now)
       (finalScoreOf w now fp s))
  else st

/-- `IntelligentMatcher.find_best_match`, with the weight vector, the
local hour and the wall clock explicit. -/
def findBestMatch (w : List (Str × ℚ)) (hour : ℕ) (now : ℚ) (fp : Fingerprint)
    (cands : List Session) : MatchResult :=
  if cands = [] then
    { is_match := false
      confidence_score := 0
      details := MatchDetails.reason "no_candidates".data
      session_id := none }
  else
    { is_match := decide (getDynamicThreshold hour fp ≤
        (cands.foldl (bestStep w now fp) (none, 0, MatchDetails.empty)).2.1)
      confidence_score := (cands.foldl (bestStep w now fp) (none, 0, MatchDetails.empty)).2.1
      details := (cands.foldl (bestStep w now fp) (none, 0, MatchDetails.empty)).2.2
      session_id :=
        (cands.foldl (bestStep w now fp) (none, 0, MatchDetails.empty)).1.map
          (fun s => s.session_id) }

/-! ## Resolution coordinator
(`DeepLinkHandler.find_matching_session`, `mark_session_resolved`,
`resolve_deeplink`). -/

/-- One stored row of the `deeplink_sessions` table, restricted to the
columns `mark_session_resolved` touches. -/
structure SessionRow where
  session_id : Str
  is_resolved : Bool
  resolved_at : Option ℚ
  match_confidence : Option ℚ
  match_details : Option (List (Str × ℚ))
deriving DecidableEq

/-- `DeepLinkHandler.mark_session_resolved`: the UPDATE
`SET is_resolved = TRUE, resolved_at = now, match_confidence = ?,
match_details = ? WHERE session_id = ?` applied to the table, paired with
the returned success flag (`rows_affected > 0`).  Note the WHERE clause
of the source matches on `session_id` only. -/
def markSessionResolved (db : List SessionRow) (sid : Str) (conf : Option ℚ)
    (details : Option (List (Str × ℚ))) (now : ℚ) : List SessionRow × Bool :=
  (db.map (fun r =>
      if r.session_id = sid then
        { r with
          is_resolved := true
          resolved_at := some now
          match_confidence := conf
          match_details := details }
      else r),
   decide (0 < (db.filter (fun r => r.session_id = sid)).length))

/-- `DeepLinkHandler.find_matching_session`.  The candidate query's
outcome is explicit: `Except.error` = the storage call raised, and the
surrounding `except Exception` turns it into `None`; `Except.ok` carries
the open, unexpired candidates (newest first, limit 50). -/
def findMatchingSession (w : List (Str × ℚ)) (hour : ℕ) (now : ℚ)
    (storage : Except Unit (List Session)) (fp : Fingerprint) : Option Session :=
  match storage with
  | Except.error _ => none
  | Except.ok cands =>
    if cands = [] then none
    else
      if (findBestMatch w hour now fp cands).is_match then
        match (findBestMatch w hour now fp cands).session_id with
        | some sid =>
          if sid = [] then none
          else cands.find? (fun s => s.session_id = sid)
        | none => none
      else none

/-- The response of the `/resolve` endpoint, restricted to the fields
determined by the matching outcome. -/
structure ResolveResponse where
  success : Bool
  promo_id : Option Str
  domain : Option Str
  session_id : Option Str
  matched : Bool
deriving DecidableEq

/-- `resolve_deeplink` (`app/api/deeplinks.py`): build the response from
the `find_matching_session` outcome (the `mark_session_resolved` side
effect does not change the response). -/
def resolveDeeplink (w : List (Str × ℚ)) (hour : ℕ) (now : ℚ)
    (storage : Except Unit (List Session)) (fp : Fingerprint) : ResolveResponse :=
  match findMatchingSession w hour now storage fp with
  | some s =>
    { success := true
      promo_id := some s.promo_id
      domain := some s.domain
      session_id := some s.session_id
      matched := true }
  | none =>
    { success := false
      promo_id := none
      domain := none
      session_id := none
      matched := false }

/-! ## Weight adaptation
(`DeepLinkHandler.optimize_algorithm_weights`,
`IntelligentMatcher.update_weights`). -/

/-- One row of the adaptation query result (`is_resolved = TRUE AND
match_details IS NOT NULL AND match_confidence > 7/10`, newest first,
limit 1000).  `match_details` is the decoded `component_scores` dict;
`none` = `json.loads` failed and the row is skipped. -/
structure HistRow where
  match_details : Option (List (Str × ℚ))
  match_confidence : ℚ

/-- One `component_performance[component]` accumulation step
(`total_score += score * confidence; count += 1`). -/
def bumpPerf (perf : List (Str × ℚ × ℕ)) (k : Str) (v : ℚ) : List (Str × ℚ × ℕ) :=
  if perf.any (fun p => p.1 = k) then
    perf.map (fun p => if p.1 = k then (p.1, p.2.1 + v, p.2.2 + 1) else p)
  else perf ++ [(k, v, 1)]

/-- The `for result in results` loop building `component_performance`. -/
def collectPerf (rows : List HistRow) : List (Str × ℚ × ℕ) :=
  rows.foldl
    (fun perf r =>
      match r.match_details with
      | none => perf
      | some scores =>
        scores.foldl (fun pf p => bumpPerf pf p.1 (p.2 * r.match_confidence)) perf)
    []

/-- Sum of the values of a weight dict. -/
def sumW (w : List (Str × ℚ)) : ℚ := (w.map (fun p => p.2)).sum

/-- Python `cur.update(upd)`: overwrite values of existing keys in place,
append new keys in `upd` order. -/
def dictUpdate (cur upd : List (Str × ℚ)) : List (Str × ℚ) :=
  cur.map (fun p =>
      match lookupD upd p.1 with
      | some v => (p.1, v)
      | none => p) ++
    upd.filter (fun p => !(cur.any (fun q => q.1 = p.1)))

/-- `IntelligentMatcher.update_weights`: renormalise the proposed dict
when its sum drifts from 1.0 by more than 1/100, then `weights.update`.
A zero total raises `ZeroDivisionError` in the source, which propagates
to the `except` of `optimize_algorithm_weights` and leaves the weights
unchanged — embedded as returning `cur`. -/
def updateWeights (cur upd : List (Str × ℚ)) : List (Str × ℚ) :=
  if |sumW upd - 1| > 1/100 then
    if sumW upd = 0 then cur
    else dictUpdate cur (upd.map (fun p => (p.1, p.2 / sumW upd)))
  else dictUpdate cur upd

/-- The `new_weights` / `total_performance` accumulation of
`optimize_algorithm_weights` (only components whose mapped weight key
exists in the current weight dict participate). -/
def proposedWeights (w : List (Str × ℚ)) (perf : List (Str × ℚ × ℕ)) :
    List (Str × ℚ) × ℚ :=
  perf.foldl
    (fun acc p =>
      if 0 < p.2.2 then
        if (lookupD w (mapScoreKeyToWeight p.1)).isSome then
          (insertA acc.1 (mapScoreKeyToWeight p.1) (p.2.1 / (p.2.2 : ℚ)),
           acc.2 + p.2.1 / (p.2.2 : ℚ))
        else acc
      else acc)
    ([], 0)

/-- `DeepLinkHandler.optimize_algorithm_weights` as a transformer of the
weight-vector state: fewer than 10 qualifying rows (or an empty
performance total) leaves the weights untouched; otherwise the proposal
is normalised, smoothed 80/20 against the old weights (absent features
kept), and installed via `update_weights`. -/
def optimizeAlgorithmWeights (w : List (Str × ℚ)) (rows : List HistRow) :
    List (Str × ℚ) :=
  if rows.length < 10 then w
  else
    if 0 < (proposedWeights w (collectPerf rows)).2 then
      updateWeights w
        (w.map (fun p =>
          match
            lookupD
              ((proposedWeights w (collectPerf rows)).1.map
                (fun q => (q.1, q.2 / (proposedWeights w (collectPerf rows)).2)))
              p.1
          with
          | some nv => (p.1, 4/5 * p.2 + 1/5 * nv)
          | none => p))
    else w

/-! ## Spec-side definitions (stated from the spec's words, for the
refinement claims). -/

/-- The spec's piecewise temporal-plausibility table (§4.3), stated
exactly as written there, over `Δ = now - createdAt`. -/
def temporalPlausibilitySpec (createdAt : Option ℚ) (now : ℚ) : ℚ :=
  match createdAt with
  | none => 4/5
  | some t =>
    if now - t < 10 then 1/5
    else if 10 ≤ now - t ∧ now - t < 30 then 3/5
    else if 30 ≤ now - t ∧ now - t ≤ 600 then 1
    else if 600 < now - t ∧ now - t ≤ 3600 then 9/10
    else if 3600 < now - t ∧ now - t ≤ 14400 then 7/10
    else if 14400 < now - t ∧ now - t ≤ 86400 then 2/5
    else 1/10

/-- The spec's fingerprint-quality formula (§4.5): weighted completeness
over timezone 3/10, screen 1/4, language 1/5, device model 3/20,
user-agent 1/10 (total weight 1). -/
def fingerprintQualitySpec (fp : Fingerprint) : ℚ :=
  (if fp.timezone ≠ [] then 3/10 else 0) + (if fp.screen_size ≠ [] then 1/4 else 0) +
    (if fp.language ≠ [] then 1/5 else 0) + (if fp.model ≠ [] then 3/20 else 0) +
    (if fp.user_agent ≠ [] then 1/10 else 0)

/-- The spec's dynamic-threshold formula (§4.4): base 7/10, ±1/20 by
business hours 09:00–21:00, −1/20 above quality 4/5 / +1/10 below
quality 2/5, clamped to [1/2, 9/10]. -/
def dynamicThresholdSpec (hour : ℕ) (fp : Fingerprint) : ℚ :=
  max (1/2) (min (9/10)
    (7/10 + (if 9 ≤ hour ∧ hour ≤ 21 then 1/20 else -1/20) +
      (if fingerprintQualitySpec fp > 4/5 then -1/20
       else if fingerprintQualitySpec fp < 2/5 then 1/10
       else 0)))

/-! ## Theorems -/

/-- C4: the implemented temporal multiplier agrees with the spec's
piecewise table at every elapsed time, and an absent or unparsable
creation timestamp yields exactly the neutral 4/5. -/
theorem temporal_matches_spec (createdAt : Option ℚ) (now : ℚ) :
    validateTemporalPatterns createdAt now = temporalPlausibilitySpec createdAt now ∧
    validateTemporalPatterns none now = 4/5 := by
  constructor
  · cases createdAt with
    | none => rfl
    | some t =>
      simp only [validateTemporalPatterns, temporalPlausibilitySpec]
      by_cases h1 : now - t < 10
      · rw [if_pos h1, if_pos h1]
      · rw [if_neg h1, if_neg h1]
        by_cases h2 : now - t < 30
        · rw [if_pos h2, if_pos ⟨not_lt.mp h1, h2⟩]
        · rw [if_neg h2,
            if_neg (show ¬(10 ≤ now - t ∧ now - t < 30) from fun hc => h2 hc.2)]
  · rfl

/-- Helper: the loop-accumulated fingerprint quality equals the spec's
weighted-completeness sum. -/
theorem assess_quality_eq (fp : Fingerprint) :
    assessFingerprintQuality fp = fingerprintQualitySpec fp := by
  unfold assessFingerprintQuality fingerprintQualitySpec
  by_cases h1 : fp.timezone = [] <;> by_cases h2 : fp.screen_size = [] <;>
    by_cases h3 : fp.language = [] <;> by_cases h4 : fp.model = [] <;>
      by_cases h5 : fp.user_agent = [] <;>
        simp [h1, h2, h3, h4, h5] <;> norm_num

/-- C8: the dynamic acceptance threshold is exactly the spec's formula —
base 7/10, +1/20 during hours 9–21 and −1/20 off-hours, −1/20 above
quality 4/5 and +1/10 below quality 2/5 (quality = weighted completeness
with weights 3/10/1/4/1/5/3/20/1/10), clamped to [1/2, 9/10]. -/
theorem dynamic_threshold_matches_spec (hour : ℕ) (fp : Fingerprint) :
    getDynamicThreshold hour fp = dynamicThresholdSpec hour fp := by
  unfold getDynamicThreshold dynamicThresholdSpec
  rw [assess_quality_eq]
  by_cases hh : 9 ≤ hour ∧ hour ≤ 21 <;>
    by_cases hq1 : fingerprintQualitySpec fp > 4/5 <;>
      by_cases hq2 : fingerprintQualitySpec fp < 2/5 <;>
        simp [hh, hq1, hq2] <;> norm_num

/-- C1 (code bug): the UPDATE of `mark_session_resolved` is keyed on
`session_id` alone — no `is_resolved = FALSE` compare-and-set — so on a
table whose only row is already resolved the call still affects the row
and reports success, and resolving the same candidate twice in a row
succeeds both times. -/
theorem mark_session_resolved_lacks_cas :
    (markSessionResolved [⟨"s1".data, false, none, none, none⟩]
        "s1".data (some (9/10)) none 100).2 = true ∧
    ((markSessionResolved [⟨"s1".data, false, none, none, none⟩]
        "s1".data (some (9/10)) none 100).1.map (fun r => r.is_resolved)) = [true] ∧
    (markSessionResolved
        (markSessionResolved [⟨"s1".data, false, none, none, none⟩]
          "s1".data (some (9/10)) none 100).1
        "s1".data (some (4/5)) none 200).2 = true := by
  decide

/-- C3 (counterexample): a failed storage call during a resolution
attempt produces the very same response as an empty candidate pool — an
ordinary unmatched `ResolveResponse`, not a distinguishable error
outcome. -/
theorem storage_error_indistinguishable :
    resolveDeeplink defaultWeights 12 0 (Except.error ()) ⟨[], [], [], [], []⟩ =
      resolveDeeplink defaultWeights 12 0 (Except.ok []) ⟨[], [], [], [], []⟩ ∧
    (resolveDeeplink defaultWeights 12 0 (Except.error ()) ⟨[], [], [], [], []⟩).success
      = false := by
  decide

/-- C3 (amended): when the storage call of `find_matching_session`
raises, the exception is caught and converted into the ordinary "no
match" outcome (`None`, hence an unmatched response); the storage call
is made once and not retried. -/
theorem storage_error_swallowed (w : List (Str × ℚ)) (hour : ℕ) (now : ℚ)
    (fp : Fingerprint) :
    findMatchingSession w hour now (Except.error ()) fp = none ∧
    resolveDeeplink w hour now (Except.error ()) fp =
      { success := false, promo_id := none, domain := none,
        session_id := none, matched := false } := by
  exact ⟨rfl, rfl⟩

/-- Helper: every locale listed among a macro-language's regional
variants has that macro-language as its base (`split('_')[0]`) part. -/
theorem related_variants_base :
    ∀ p ∈ relatedLanguages, ∀ x ∈ p.2, mainLang x = p.1 := by
  decide

/-- Helper: the `related_languages` membership test can only succeed on
two locales with the same base language. -/
theorem relatedCheck_same_base (x y : Str) (h : relatedCheck x y = true) :
    mainLang x = mainLang y := by
  unfold relatedCheck at h
  rw [List.any_eq_true] at h
  obtain ⟨p, hp, hc⟩ := h
  rw [decide_eq_true_eq] at hc
  rw [related_variants_base p hp x hc.1, related_variants_base p hp y hc.2]

/-- C5 (counterexample): two locales listed as regional variants of a
common macro-language (`zh_cn` vs `zh_tw`) score 4/5 — the
same-base-language branch — not the claimed 7/10. -/
theorem language_variant_pair_scores_point_eight :
    languageSimilarity "zh_cn".data "zh_tw".data = 4/5 ∧
    ¬ languageSimilarity "zh_cn".data "zh_tw".data = 7/10 := by
  decide

/-- C5 (amended): every pair of distinct listed regional variants of a
common macro-language scores 4/5 (the same-base-language branch fires
first), and the 7/10 outcome of the variant table is unreachable for
every input pair. -/
theorem language_variant_branch_dead :
    (∀ p ∈ relatedLanguages, ∀ x ∈ p.2, ∀ y ∈ p.2, x ≠ y →
      languageSimilarity x y = 4/5) ∧
    (∀ b a : Str, languageSimilarity b a ≠ 7/10) := by
  constructor
  · decide
  · intro b a
    unfold languageSimilarity
    split_ifs with h1 h2 h3 h4 h5
    · norm_num
    · norm_num
    · norm_num
    · norm_num
    · exact absurd (relatedCheck_same_base _ _ h5) h4
    · norm_num

/-- Helper: every hit of the device-mapping scan is 0.95 or 0.9. -/
theorem deviceMapLoop_cases :
    ∀ (l : List (Str × List Str)) (b a : Str) (v : ℚ),
      deviceMapLoop l b a = some v → v = 19/20 ∨ v = 9/10 := by
  intro l
  induction l with
  | nil => intro b a v h; simp [deviceMapLoop] at h
  | cons p rest ih =>
    intro b a v h
    unfold deviceMapLoop at h
    split_ifs at h
    · injection h with h; exact Or.inl h.symm
    · injection h with h; exact Or.inl h.symm
    · injection h with h; exact Or.inr h.symm
    · exact ih b a v h

/-- Helper: the timezone comparator stays in [0, 1]. -/
theorem timezone_bounds (b a : Str) :
    0 ≤ timezoneSimilarity b a ∧ timezoneSimilarity b a ≤ 1 := by
  unfold timezoneSimilarity
  split_ifs <;> try norm_num
  cases hb : lookupD utcOffsets b <;> cases ha : lookupD utcOffsets a <;>
    simp [hb, ha] <;> split_ifs <;> norm_num

/-- Helper: the screen comparator stays in [0, 1]. -/
theorem screen_bounds (b a : Str) :
    0 ≤ screenSimilarity b a ∧ screenSimilarity b a ≤ 1 := by
  unfold screenSimilarity
  by_cases h0 : b = [] ∨ a = []
  · rw [if_pos h0]; norm_num
  · rw [if_neg h0]
    rcases hpb : parseScreen b with ⟨bw?, bh?⟩
    rcases hpa : parseScreen a with ⟨aw?, ah?⟩
    cases bw? <;> cases bh? <;> cases aw? <;> cases ah? <;>
      simp only [] <;> (try split_ifs) <;> norm_num

/-- Helper: the language comparator stays in [0, 1]. -/
theorem language_bounds (b a : Str) :
    0 ≤ languageSimilarity b a ∧ languageSimilarity b a ≤ 1 := by
  unfold languageSimilarity
  split_ifs <;> norm_num

/-- Helper: the device comparator stays in [0, 1]. -/
theorem device_bounds (b a : Str) :
    0 ≤ deviceSimilarity b a ∧ deviceSimilarity b a ≤ 1 := by
  unfold deviceSimilarity
  by_cases h0 : strip (toLower b) = [] ∨ strip (toLower a) = []
  · rw [if_pos h0]; norm_num
  · rw [if_neg h0]
    by_cases h1 : strip (toLower b) = strip (toLower a)
    · rw [if_pos h1]; norm_num
    · rw [if_neg h1]
      cases hm : deviceMapLoop deviceMappings (strip (toLower b)) (strip (toLower a)) with
      | none => simp only []; split_ifs <;> norm_num
      | some v =>
        simp only []
        rcases deviceMapLoop_cases _ _ _ _ hm with rfl | rfl <;> norm_num

/-- Helper: at most the six boolean flags can match. -/
theorem bool_matches_le (b a : UAComponents) : boolMatches b a ≤ 6 := by
  unfold boolMatches
  split_ifs <;> omega

/-- Helper: matching version tokens never exceed comparable ones. -/
theorem version_matches_le (b a : UAComponents) :
    versionMatches b a ≤ versionTotal b a := by
  obtain ⟨w1, m1, i1, an1, s1, c1, iv1, av1⟩ := b
  obtain ⟨w2, m2, i2, an2, s2, c2, iv2, av2⟩ := a
  unfold versionMatches versionTotal
  cases iv1 <;> cases iv2 <;> cases av1 <;> cases av2 <;>
    simp only [] <;> (try split_ifs) <;> omega

/-- Helper: the comparable version tokens are at most two. -/
theorem version_total_le (b a : UAComponents) : versionTotal b a ≤ 2 := by
  obtain ⟨w1, m1, i1, an1, s1, c1, iv1, av1⟩ := b
  obtain ⟨w2, m2, i2, an2, s2, c2, iv2, av2⟩ := a
  unfold versionTotal
  cases iv1 <;> cases iv2 <;> cases av1 <;> cases av2 <;> simp

/-- Helper: the user-agent comparator stays in [0, 1]. -/
theorem ua_bounds (b a : Str) :
    0 ≤ userAgentSimilarity b a ∧ userAgentSimilarity b a ≤ 1 := by
  unfold userAgentSimilarity
  split_ifs with h0 h1
  · norm_num
  · have hd : (0 : ℚ) <
        ((6 + versionTotal (extractUAComponents (toLower b)) (extractUAComponents (toLower a)) :
          ℕ) : ℚ) := by
      exact_mod_cast
        (by omega :
          0 < 6 + versionTotal (extractUAComponents (toLower b)) (extractUAComponents (toLower a)))
    constructor
    · exact div_nonneg (by positivity) (le_of_lt hd)
    · rw [div_le_one hd]
      have hbm := bool_matches_le (extractUAComponents (toLower b)) (extractUAComponents (toLower a))
      have hvm :=
        version_matches_le (extractUAComponents (toLower b)) (extractUAComponents (toLower a))
      exact_mod_cast
        (by omega :
          boolMatches (extractUAComponents (toLower b)) (extractUAComponents (toLower a)) +
            versionMatches (extractUAComponents (toLower b)) (extractUAComponents (toLower a)) ≤
          6 + versionTotal (extractUAComponents (toLower b)) (extractUAComponents (toLower a)))
  · norm_num

/-- Helper: the timezone comparator's missing branch. -/
theorem tz_missing (a : Str) :
    timezoneSimilarity [] a = 1/2 ∧ timezoneSimilarity a [] = 1/2 := by
  constructor <;> simp [timezoneSimilarity]

/-- Helper: the screen comparator's missing branch. -/
theorem screen_missing (a : Str) :
    screenSimilarity [] a = 3/10 ∧ screenSimilarity a [] = 3/10 := by
  constructor <;> simp [screenSimilarity]

/-- Helper: the language comparator's missing branch. -/
theorem language_missing (a : Str) :
    languageSimilarity [] a = 2/5 ∧ languageSimilarity a [] = 2/5 := by
  constructor <;> simp [languageSimilarity, toLower]

/-- Helper: the device comparator's missing branch. -/
theorem device_missing (a : Str) :
    deviceSimilarity [] a = 2/5 ∧ deviceSimilarity a [] = 2/5 := by
  constructor <;> simp [deviceSimilarity, strip, toLower]

/-- Helper: the user-agent comparator's missing branch. -/
theorem ua_missing (a : Str) :
    userAgentSimilarity [] a = 3/10 ∧ userAgentSimilarity a [] = 3/10 := by
  constructor <;> simp [userAgentSimilarity, toLower]

/-- C7: every one of the five feature comparators returns a value in
[0, 1] on every input pair, and each missing-data branch returns exactly
its documented neutral constant (timezone 0.5, screen 0.3, language 0.4,
device model 0.4, user-agent 0.3). -/
theorem comparators_in_range_with_neutral_defaults :
    (∀ b a : Str, 0 ≤ timezoneSimilarity b a ∧ timezoneSimilarity b a ≤ 1) ∧
    (∀ b a : Str, 0 ≤ screenSimilarity b a ∧ screenSimilarity b a ≤ 1) ∧
    (∀ b a : Str, 0 ≤ languageSimilarity b a ∧ languageSimilarity b a ≤ 1) ∧
    (∀ b a : Str, 0 ≤ deviceSimilarity b a ∧ deviceSimilarity b a ≤ 1) ∧
    (∀ b a : Str, 0 ≤ userAgentSimilarity b a ∧ userAgentSimilarity b a ≤ 1) ∧
    (∀ a : Str, timezoneSimilarity [] a = 1/2 ∧ timezoneSimilarity a [] = 1/2) ∧
    (∀ a : Str, screenSimilarity [] a = 3/10 ∧ screenSimilarity a [] = 3/10) ∧
    (∀ a : Str, languageSimilarity [] a = 2/5 ∧ languageSimilarity a [] = 2/5) ∧
    (∀ a : Str, deviceSimilarity [] a = 2/5 ∧ deviceSimilarity a [] = 2/5) ∧
    (∀ a : Str, userAgentSimilarity [] a = 3/10 ∧ userAgentSimilarity a [] = 3/10) :=
  ⟨timezone_bounds, screen_bounds, language_bounds, device_bounds, ua_bounds,
   tz_missing, screen_missing, language_missing, device_missing, ua_missing⟩

/-- Helper: a successful dict lookup returns the value of some entry. -/
theorem lookupD_mem {α : Type} (l : List (Str × α)) (k : Str) (v : α)
    (h : lookupD l k = some v) : ∃ p ∈ l, p.2 = v := by
  unfold lookupD at h
  cases hf : List.find? (fun p => p.1 = k) l with
  | none => simp [hf] at h
  | some p =>
    simp only [hf, Option.map_some', Option.some.injEq] at h
    exact ⟨p, List.mem_of_find?_eq_some hf, h⟩

/-- Helper: over non-negative weights and scores in [0, 1], the
score/weight accumulator keeps `0 ≤ total_score ≤ total_weight`. -/
theorem scoreAccum_go_bounds (w : List (Str × ℚ)) (hw : ∀ p ∈ w, 0 ≤ p.2) :
    ∀ (scores : List (Str × ℚ)) (init : ℚ × ℚ),
      (∀ p ∈ scores, 0 ≤ p.2 ∧ p.2 ≤ 1) → 0 ≤ init.1 → init.1 ≤ init.2 →
      0 ≤ (scores.foldl (scoreAccumStep w) init).1 ∧
        (scores.foldl (scoreAccumStep w) init).1 ≤ (scores.foldl (scoreAccumStep w) init).2 := by
  intro scores
  induction scores with
  | nil => intro init _ h0 h1; exact ⟨h0, h1⟩
  | cons p t ih =>
    intro init hs h0 h1
    rw [List.foldl_cons]
    cases hl : lookupD w (mapScoreKeyToWeight p.1) with
    | none =>
      have hstep : scoreAccumStep w init p = init := by
        unfold scoreAccumStep; rw [hl]
      rw [hstep]
      exact ih init (fun q hq => hs q (List.mem_cons_of_mem _ hq)) h0 h1
    | some wt =>
      have hwt : 0 ≤ wt := by
        obtain ⟨q, hq, rfl⟩ := lookupD_mem w _ wt hl
        exact hw q hq
      have hp := hs p (List.mem_cons_self _ _)
      have hstep : scoreAccumStep w init p = (init.1 + p.2 * wt, init.2 + wt) := by
        unfold scoreAccumStep; rw [hl]
      rw [hstep]
      refine ih _ (fun q hq => hs q (List.mem_cons_of_mem _ hq)) ?_ ?_
      · exact add_nonneg h0 (mul_nonneg hp.1 hwt)
      · exact add_le_add h1 (mul_le_of_le_one_left hwt hp.2)

/-- Helper: every component score of `_calculate_match_score` is in
[0, 1]. -/
theorem componentScores_range (s : Session) (fp : Fingerprint) :
    ∀ p ∈ componentScoresOf s fp, 0 ≤ p.2 ∧ p.2 ≤ 1 := by
  intro p hp
  simp only [componentScoresOf, List.mem_cons, List.not_mem_nil, or_false] at hp
  rcases hp with rfl | rfl | rfl | rfl | rfl
  · exact timezone_bounds _ _
  · exact screen_bounds _ _
  · exact language_bounds _ _
  · exact device_bounds _ _
  · exact ua_bounds _ _

/-- Helper: the weighted score of `_calculate_match_score` lies in [0, 1]
whenever the weight values are non-negative. -/
theorem calc_in_range (w : List (Str × ℚ)) (s : Session) (fp : Fingerprint)
    (hw : ∀ p ∈ w, 0 ≤ p.2) :
    0 ≤ (calcMatchScore w s fp).1 ∧ (calcMatchScore w s fp).1 ≤ 1 := by
  have hb := scoreAccum_go_bounds w hw (componentScoresOf s fp) (0, 0)
    (componentScores_range s fp) le_rfl le_rfl
  unfold calcMatchScore
  by_cases hpos : 0 < (scoreAccum w (componentScoresOf s fp)).2
  · rw [if_pos hpos]
    unfold scoreAccum at hb ⊢
    constructor
    · exact div_nonneg hb.1 (le_of_lt hpos)
    · rw [div_le_one (by unfold scoreAccum at hpos; exact hpos)]
      exact hb.2
  · rw [if_neg hpos]
    norm_num

/-- C10: under the default weight vector every component-score key maps
to a present weight key and the accumulated total weight is exactly 1;
were the total weight 0 the function would return 0.0 instead of
dividing; and with non-negative weights the weighted score — whose
component scores always lie in [0, 1] — lies in [0, 1]. -/
theorem calc_match_score_safe :
    (∀ k ∈ ["timezone".data, "screen".data, "language".data, "device".data,
        "user_agent".data],
      (lookupD defaultWeights (mapScoreKeyToWeight k)).isSome = true) ∧
    (∀ (s : Session) (fp : Fingerprint),
      (scoreAccum defaultWeights (componentScoresOf s fp)).2 = 1) ∧
    (∀ (w : List (Str × ℚ)) (s : Session) (fp : Fingerprint),
      (scoreAccum w (componentScoresOf s fp)).2 = 0 → (calcMatchScore w s fp).1 = 0) ∧
    (∀ (w : List (Str × ℚ)) (s : Session) (fp : Fingerprint),
      (∀ p ∈ w, 0 ≤ p.2) →
      0 ≤ (calcMatchScore w s fp).1 ∧ (calcMatchScore w s fp).1 ≤ 1) := by
  refine ⟨by decide, ?_, ?_, fun w s fp hw => calc_in_range w s fp hw⟩
  · intro s fp
    have h1 : lookupD defaultWeights (mapScoreKeyToWeight "timezone".data) =
        some (7/20) := by decide
    have h2 : lookupD defaultWeights (mapScoreKeyToWeight "screen".data) =
        some (1/4) := by decide
    have h3 : lookupD defaultWeights (mapScoreKeyToWeight "language".data) =
        some (1/5) := by decide
    have h4 : lookupD defaultWeights (mapScoreKeyToWeight "device".data) =
        some (3/20) := by decide
    have h5 : lookupD defaultWeights (mapScoreKeyToWeight "user_agent".data) =
        some (1/20) := by decide
    simp only [scoreAccum, componentScoresOf, List.foldl_cons, List.foldl_nil,
      scoreAccumStep, h1, h2, h3, h4, h5]
    norm_num
  · intro w s fp h
    unfold calcMatchScore
    rw [h]
    norm_num

/-- Helper: the temporal multiplier is never negative. -/
theorem temporal_nonneg (c : Option ℚ) (now : ℚ) :
    0 ≤ validateTemporalPatterns c now := by
  cases c with
  | none => norm_num [validateTemporalPatterns]
  | some t =>
    simp only [validateTemporalPatterns]
    split_ifs <;> norm_num

/-- Helper: with non-negative weights every candidate's final score is
non-negative. -/
theorem final_nonneg (w : List (Str × ℚ)) (now : ℚ) (fp : Fingerprint) (s : Session)
    (hw : ∀ p ∈ w, 0 ≤ p.2) : 0 ≤ finalScoreOf w now fp s :=
  mul_nonneg (calc_in_range w s fp hw).1 (temporal_nonneg _ _)

/-- Helper: invariant of the best-candidate loop of `find_best_match`:
the running best dominates every final score seen, never decreases, and
is either untouched or attained by some scanned candidate. -/
theorem bestLoop_spec (w : List (Str × ℚ)) (now : ℚ) (fp : Fingerprint) :
    ∀ (cands : List Session) (st : Option Session × ℚ × MatchDetails),
      (∀ c ∈ cands, finalScoreOf w now fp c ≤ (cands.foldl (bestStep w now fp) st).2.1) ∧
      st.2.1 ≤ (cands.foldl (bestStep w now fp) st).2.1 ∧
      (((cands.foldl (bestStep w now fp) st).1 = st.1 ∧
        (cands.foldl (bestStep w now fp) st).2.1 = st.2.1) ∨
       ∃ c ∈ cands, (cands.foldl (bestStep w now fp) st).1 = some c ∧
         (cands.foldl (bestStep w now fp) st).2.1 = finalScoreOf w now fp c) := by
  intro cands
  induction cands with
  | nil =>
    intro st
    exact ⟨fun c hc => absurd hc (List.not_mem_nil c), le_rfl, Or.inl ⟨rfl, rfl⟩⟩
  | cons c t ih =>
    intro st
    rw [List.foldl_cons]
    by_cases hlt : st.2.1 < finalScoreOf w now fp c
    · have hstep : bestStep w now fp st c =
          (some c, finalScoreOf w now fp c,
            MatchDetails.scored (calcMatchScore w c fp).2
              (validateTemporalPatterns c.created_at now) (finalScoreOf w now fp c)) := by
        unfold bestStep; rw [if_pos hlt]
      rw [hstep]
      obtain ⟨ih1, ih2, ih3⟩ := ih
        (some c, finalScoreOf w now fp c,
          MatchDetails.scored (calcMatchScore w c fp).2
            (validateTemporalPatterns c.created_at now) (finalScoreOf w now fp c))
      refine ⟨?_, ?_, ?_⟩
      · intro d hd
        rcases List.mem_cons.mp hd with rfl | hdt
        · exact ih2
        · exact ih1 d hdt
      · exact le_trans (le_of_lt hlt) ih2
      · rcases ih3 with ⟨ha, hb⟩ | ⟨d, hd, ha, hb⟩
        · exact Or.inr ⟨c, List.mem_cons_self _ _, ha, hb⟩
        · exact Or.inr ⟨d, List.mem_cons_of_mem _ hd, ha, hb⟩
    · have hstep : bestStep w now fp st c = st := by
        unfold bestStep; rw [if_neg hlt]
      rw [hstep]
      obtain ⟨ih1, ih2, ih3⟩ := ih st
      refine ⟨?_, ih2, ?_⟩
      · intro d hd
        rcases List.mem_cons.mp hd with rfl | hdt
        · exact le_trans (not_lt.mp hlt) ih2
        · exact ih1 d hdt
      · rcases ih3 with ⟨ha, hb⟩ | ⟨d, hd, ha, hb⟩
        · exact Or.inl ⟨ha, hb⟩
        · exact Or.inr ⟨d, List.mem_cons_of_mem _ hd, ha, hb⟩

/-- C2: on a non-empty candidate list (and non-negative weights, as the
engine maintains) the returned `confidence_score` is dominated by no
candidate's final score and is attained by some candidate, the selected
candidate — when one is reported — attains it, and on the empty list the
result is a non-match with confidence 0 and details reason
"no_candidates". -/
theorem find_best_match_selects_max (w : List (Str × ℚ)) (hour : ℕ) (now : ℚ)
    (fp : Fingerprint) (cands : List Session)
    (hw : ∀ p ∈ w, 0 ≤ p.2) (hne : cands ≠ []) :
    (∀ c ∈ cands,
      finalScoreOf w now fp c ≤ (findBestMatch w hour now fp cands).confidence_score) ∧
    (∃ c ∈ cands,
      finalScoreOf w now fp c = (findBestMatch w hour now fp cands).confidence_score) ∧
    (∀ sid, (findBestMatch w hour now fp cands).session_id = some sid →
      ∃ c ∈ cands, c.session_id = sid ∧
        finalScoreOf w now fp c = (findBestMatch w hour now fp cands).confidence_score) ∧
    findBestMatch w hour now fp [] =
      { is_match := false, confidence_score := 0,
        details := MatchDetails.reason "no_candidates".data, session_id := none } := by
  have hconf : (findBestMatch w hour now fp cands).confidence_score =
      (cands.foldl (bestStep w now fp) (none, 0, MatchDetails.empty)).2.1 := by
    unfold findBestMatch; rw [if_neg hne]
  have hsid : (findBestMatch w hour now fp cands).session_id =
      (cands.foldl (bestStep w now fp) (none, 0, MatchDetails.empty)).1.map
        (fun s => s.session_id) := by
    unfold findBestMatch; rw [if_neg hne]
  obtain ⟨h1, h2, h3⟩ := bestLoop_spec w now fp cands (none, 0, MatchDetails.empty)
  refine ⟨?_, ?_, ?_, rfl⟩
  · intro c hc; rw [hconf]; exact h1 c hc
  · rcases h3 with ⟨_, hb⟩ | ⟨c, hc, _, hb⟩
    · cases cands with
      | nil => exact absurd rfl hne
      | cons c0 t =>
        refine ⟨c0, List.mem_cons_self _ _, ?_⟩
        rw [hconf, hb]
        have hle : finalScoreOf w now fp c0 ≤ 0 := by
          have h := h1 c0 (List.mem_cons_self _ _)
          rw [hb] at h
          exact h
        exact le_antisymm hle (final_nonneg w now fp c0 hw)
    · exact ⟨c, hc, by rw [hconf, hb]⟩
  · intro sid hs
    rw [hsid] at hs
    rcases Option.map_eq_some'.mp hs with ⟨c, hc1, hc2⟩
    rcases h3 with ⟨ha, _⟩ | ⟨d, hd, ha, hb⟩
    · rw [ha] at hc1; exact absurd hc1 (Option.noConfusion)
    · rw [ha] at hc1
      obtain rfl : d = c := Option.some.inj hc1
      exact ⟨d, hd, hc2, by rw [hconf, hb]⟩

/-- C2 witness: on a concrete one-candidate pool with the default
weights, the candidate's final score is bounded by the returned
confidence. -/
theorem find_best_match_selects_max_witness :
    finalScoreOf defaultWeights 120
      ⟨"UTC".data, "390x844".data, "en".data, "pixel 6".data, "mozilla safari".data⟩
      ⟨"s1".data, "p1".data, "ex.com".data, "UTC".data, "390x844".data, "en".data,
        "pixel 6".data, "mozilla safari".data, some 0⟩ ≤
      (findBestMatch defaultWeights 12 120
        ⟨"UTC".data, "390x844".data, "en".data, "pixel 6".data, "mozilla safari".data⟩
        [⟨"s1".data, "p1".data, "ex.com".data, "UTC".data, "390x844".data, "en".data,
          "pixel 6".data, "mozilla safari".data, some 0⟩]).confidence_score :=
  (find_best_match_selects_max defaultWeights 12 120
      ⟨"UTC".data, "390x844".data, "en".data, "pixel 6".data, "mozilla safari".data⟩
      [⟨"s1".data, "p1".data, "ex.com".data, "UTC".data, "390x844".data, "en".data,
        "pixel 6".data, "mozilla safari".data, some 0⟩]
      (by decide) (by decide)).1
    ⟨"s1".data, "p1".data, "ex.com".data, "UTC".data, "390x844".data, "en".data,
      "pixel 6".data, "mozilla safari".data, some 0⟩
    (by decide)

/-- C10 witness: the weighted score is within [0, 1] at a concrete
candidate/query pair under the default weights. -/
theorem calc_match_score_safe_witness :
    0 ≤ (calcMatchScore defaultWeights
        ⟨"s1".data, "p1".data, "ex.com".data, "UTC".data, "390x844".data, "en".data,
          "pixel 6".data, "mozilla safari".data, some 0⟩
        ⟨"UTC".data, "390x844".data, "en".data, "pixel 6".data,
          "mozilla safari".data⟩).1 ∧
    (calcMatchScore defaultWeights
        ⟨"s1".data, "p1".data, "ex.com".data, "UTC".data, "390x844".data, "en".data,
          "pixel 6".data, "mozilla safari".data, some 0⟩
        ⟨"UTC".data, "390x844".data, "en".data, "pixel 6".data,
          "mozilla safari".data⟩).1 ≤ 1 :=
  calc_match_score_safe.2.2.2 defaultWeights
    ⟨"s1".data, "p1".data, "ex.com".data, "UTC".data, "390x844".data, "en".data,
      "pixel 6".data, "mozilla safari".data, some 0⟩
    ⟨"UTC".data, "390x844".data, "en".data, "pixel 6".data, "mozilla safari".data⟩
    (by decide)

/-- Helper: the equivalent-zone scan is insensitive to argument order. -/
theorem zonesAny_symm (l : List (Str × List Str)) (b a : Str) :
    l.any (fun p => (b = p.1 ∧ a ∈ p.2) ∨ (a = p.1 ∧ b ∈ p.2)) =
      l.any (fun p => (a = p.1 ∧ b ∈ p.2) ∨ (b = p.1 ∧ a ∈ p.2)) := by
  induction l with
  | nil => rfl
  | cons p t ih =>
    simp only [List.any_cons, ih]
    congr 1
    exact decide_eq_decide.mpr or_comm

/-- Helper: `eqZoneCheck` is symmetric. -/
theorem eqZoneCheck_symm (b a : Str) : eqZoneCheck b a = eqZoneCheck a b :=
  zonesAny_symm equivalentZones b a

/-- Helper: the timezone comparator is order-insensitive. -/
theorem timezone_symm (b a : Str) :
    timezoneSimilarity b a = timezoneSimilarity a b := by
  unfold timezoneSimilarity
  by_cases h1 : b = [] ∨ a = []
  · rw [if_pos h1, if_pos h1.symm]
  · rw [if_neg h1, if_neg (show ¬(a = [] ∨ b = []) from fun hc => h1 hc.symm)]
    by_cases h2 : b = a
    · rw [if_pos h2, if_pos h2.symm]
    · rw [if_neg h2, if_neg (show ¬(a = b) from fun hc => h2 hc.symm)]
      by_cases h3 : eqZoneCheck b a = true
      · rw [if_pos h3,
          if_pos (show eqZoneCheck a b = true by rw [← eqZoneCheck_symm]; exact h3)]
      · rw [if_neg h3,
          if_neg (show ¬(eqZoneCheck a b = true) from
            fun hc => h3 (by rw [eqZoneCheck_symm]; exact hc))]
        cases hb : lookupD utcOffsets b <;> cases ha : lookupD utcOffsets a <;>
            simp only [] <;>
          first
          | rfl
          | (rename_i bo ao
             by_cases h4 : bo = ao
             · rw [if_pos h4, if_pos h4.symm]
             · rw [if_neg h4, if_neg (show ¬(ao = bo) from fun hc => h4 hc.symm)])

/-- Helper: the rotation-tolerant box check is order-insensitive. -/
theorem withinTol_symm (w1 h1 w2 h2 t : ℤ) :
    withinTol w1 h1 w2 h2 t = withinTol w2 h2 w1 h1 t := by
  unfold withinTol
  apply decide_eq_decide.mpr
  constructor
  · rintro (⟨u, v⟩ | ⟨u, v⟩)
    · exact Or.inl ⟨by rw [abs_sub_comm]; exact u, by rw [abs_sub_comm]; exact v⟩
    · exact Or.inr ⟨by rw [abs_sub_comm]; exact v, by rw [abs_sub_comm]; exact u⟩
  · rintro (⟨u, v⟩ | ⟨u, v⟩)
    · exact Or.inl ⟨by rw [abs_sub_comm]; exact u, by rw [abs_sub_comm]; exact v⟩
    · exact Or.inr ⟨by rw [abs_sub_comm]; exact v, by rw [abs_sub_comm]; exact u⟩

/-- Helper: the screen comparator is order-insensitive. -/
theorem screen_symm (b a : Str) : screenSimilarity b a = screenSimilarity a b := by
  unfold screenSimilarity
  by_cases h0 : b = [] ∨ a = []
  · rw [if_pos h0, if_pos h0.symm]
  · rw [if_neg h0, if_neg (fun hc => h0 hc.symm)]
    rcases hpb : parseScreen b with ⟨bw?, bh?⟩
    rcases hpa : parseScreen a with ⟨aw?, ah?⟩
    cases bw? <;> cases bh? <;> cases aw? <;> cases ah? <;> simp only [] <;> try rfl
    rename_i bw bh aw ah
    by_cases hz : bw = 0 ∨ bh = 0 ∨ aw = 0 ∨ ah = 0
    · rw [if_pos hz, if_pos (show aw = 0 ∨ ah = 0 ∨ bw = 0 ∨ bh = 0 by tauto)]
    · rw [if_neg hz, if_neg (show ¬(aw = 0 ∨ ah = 0 ∨ bw = 0 ∨ bh = 0) by tauto)]
      by_cases he : (bw = aw ∧ bh = ah) ∨ (bw = ah ∧ bh = aw)
      · rw [if_pos he,
          if_pos (show (aw = bw ∧ ah = bh) ∨ (aw = bh ∧ ah = bw) by
            rcases he with ⟨u, v⟩ | ⟨u, v⟩
            · exact Or.inl ⟨u.symm, v.symm⟩
            · exact Or.inr ⟨v.symm, u.symm⟩)]
      · rw [if_neg he,
          if_neg (show ¬((aw = bw ∧ ah = bh) ∨ (aw = bh ∧ ah = bw)) from
            fun hc => he (by
              rcases hc with ⟨u, v⟩ | ⟨u, v⟩
              · exact Or.inl ⟨u.symm, v.symm⟩
              · exact Or.inr ⟨v.symm, u.symm⟩))]
        by_cases h60 : withinTol bw bh aw ah 60 = true
        · rw [if_pos h60,
            if_pos (show withinTol aw ah bw bh 60 = true by
              rw [withinTol_symm]; exact h60)]
        · rw [if_neg h60,
            if_neg (show ¬(withinTol aw ah bw bh 60 = true) from
              fun hc => h60 (by rw [withinTol_symm]; exact hc))]
          by_cases h100 : withinTol bw bh aw ah 100 = true
          · rw [if_pos h100,
              if_pos (show withinTol aw ah bw bh 100 = true by
                rw [withinTol_symm]; exact h100)]
          · rw [if_neg h100,
              if_neg (show ¬(withinTol aw ah bw bh 100 = true) from
                fun hc => h100 (by rw [withinTol_symm]; exact hc))]
            by_cases hr : 0 < aspectOf bw bh ∧ 0 < aspectOf aw ah
            · rw [if_pos hr,
                if_pos (show 0 < aspectOf aw ah ∧ 0 < aspectOf bw bh from ⟨hr.2, hr.1⟩)]
              by_cases hd1 : |aspectOf bw bh - aspectOf aw ah| < 1/20
              · rw [if_pos hd1,
                  if_pos (show |aspectOf aw ah - aspectOf bw bh| < 1/20 by
                    rw [abs_sub_comm]; exact hd1)]
              · rw [if_neg hd1,
                  if_neg (show ¬(|aspectOf aw ah - aspectOf bw bh| < 1/20) from
                    fun hc => hd1 (by rw [abs_sub_comm]; exact hc))]
                by_cases hd2 : |aspectOf bw bh - aspectOf aw ah| < 3/20
                · rw [if_pos hd2,
                    if_pos (show |aspectOf aw ah - aspectOf bw bh| < 3/20 by
                      rw [abs_sub_comm]; exact hd2)]
                · rw [if_neg hd2,
                    if_neg (show ¬(|aspectOf aw ah - aspectOf bw bh| < 3/20) from
                      fun hc => hd2 (by rw [abs_sub_comm]; exact hc))]
            · rw [if_neg hr,
                if_neg (show ¬(0 < aspectOf aw ah ∧ 0 < aspectOf bw bh) from
                  fun hc => hr ⟨hc.2, hc.1⟩)]

/-- Helper: the related-variants scan is insensitive to argument order. -/
theorem relatedAny_symm (l : List (Str × List Str)) (x y : Str) :
    l.any (fun p => x ∈ p.2 ∧ y ∈ p.2) = l.any (fun p => y ∈ p.2 ∧ x ∈ p.2) := by
  induction l with
  | nil => rfl
  | cons p t ih =>
    simp only [List.any_cons, ih]
    congr 1
    exact decide_eq_decide.mpr and_comm

/-- Helper: `relatedCheck` is symmetric. -/
theorem relatedCheck_symm (x y : Str) : relatedCheck x y = relatedCheck y x :=
  relatedAny_symm relatedLanguages x y

/-- Helper: the language comparator is order-insensitive. -/
theorem language_symm (b a : Str) :
    languageSimilarity b a = languageSimilarity a b := by
  unfold languageSimilarity
  by_cases h1 : toLower b = [] ∨ toLower a = []
  · rw [if_pos h1, if_pos h1.symm]
  · rw [if_neg h1,
      if_neg (show ¬(toLower a = [] ∨ toLower b = []) from fun hc => h1 hc.symm)]
    by_cases h2 : toLower b = toLower a
    · rw [if_pos h2, if_pos h2.symm]
    · rw [if_neg h2, if_neg (show ¬(toLower a = toLower b) from fun hc => h2 hc.symm)]
      by_cases h3 : normalizeLanguage (toLower b) = normalizeLanguage (toLower a)
      · rw [if_pos h3, if_pos h3.symm]
      · rw [if_neg h3,
          if_neg (show ¬(normalizeLanguage (toLower a) = normalizeLanguage (toLower b)) from
            fun hc => h3 hc.symm)]
        by_cases h4 : mainLang (normalizeLanguage (toLower b)) =
            mainLang (normalizeLanguage (toLower a))
        · rw [if_pos h4, if_pos h4.symm]
        · rw [if_neg h4,
            if_neg (show ¬(mainLang (normalizeLanguage (toLower a)) =
                mainLang (normalizeLanguage (toLower b))) from fun hc => h4 hc.symm)]
          by_cases h5 : relatedCheck (normalizeLanguage (toLower b))
              (normalizeLanguage (toLower a)) = true
          · rw [if_pos h5,
              if_pos (show relatedCheck (normalizeLanguage (toLower a))
                  (normalizeLanguage (toLower b)) = true by
                rw [relatedCheck_symm]; exact h5)]
          · rw [if_neg h5,
              if_neg (show ¬(relatedCheck (normalizeLanguage (toLower a))
                  (normalizeLanguage (toLower b)) = true) from
                fun hc => h5 (by rw [relatedCheck_symm]; exact hc))]

/-- Helper: the device-mapping scan is order-insensitive (each entry's
hit conditions swap roles but produce the same values). -/
theorem deviceMapLoop_symm :
    ∀ (l : List (Str × List Str)) (b a : Str),
      deviceMapLoop l b a = deviceMapLoop l a b := by
  intro l
  induction l with
  | nil => intro b a; rfl
  | cons p t ih =>
    intro b a
    unfold deviceMapLoop
    split_ifs <;> first | rfl | exact ih b a | tauto

/-- Helper: the word/character Jaccard measure is symmetric. -/
theorem jaccard_symm {α : Type} [DecidableEq α] (A B : Finset α) :
    jaccardQ A B = jaccardQ B A := by
  unfold jaccardQ
  rw [Finset.union_comm, Finset.inter_comm]

/-- Helper: the character-level similarity is symmetric. -/
theorem charSim_symm (s1 s2 : Str) : charSimilarity s1 s2 = charSimilarity s2 s1 := by
  unfold charSimilarity
  by_cases h0 : s1 = [] ∨ s2 = []
  · rw [if_pos h0, if_pos h0.symm]
  · rw [if_neg h0, if_neg (show ¬(s2 = [] ∨ s1 = []) from fun hc => h0 hc.symm)]
    exact jaccard_symm _ _

/-- Helper: the blended lexical similarity is symmetric. -/
theorem advStr_symm (s1 s2 : Str) :
    advancedStringSimilarity s1 s2 = advancedStringSimilarity s2 s1 := by
  unfold advancedStringSimilarity
  by_cases h0 : s1 = [] ∨ s2 = []
  · rw [if_pos h0, if_pos h0.symm]
  · rw [if_neg h0, if_neg (show ¬(s2 = [] ∨ s1 = []) from fun hc => h0 hc.symm)]
    by_cases h1 : (splitWs (preprocess s1)).toFinset = ∅ ∧
        (splitWs (preprocess s2)).toFinset = ∅
    · rw [if_pos h1,
        if_pos (show (splitWs (preprocess s2)).toFinset = ∅ ∧
            (splitWs (preprocess s1)).toFinset = ∅ from ⟨h1.2, h1.1⟩)]
      by_cases h2 : s1 = s2
      · rw [if_pos h2, if_pos h2.symm]
      · rw [if_neg h2, if_neg (show ¬(s2 = s1) from fun hc => h2 hc.symm)]
    · rw [if_neg h1,
        if_neg (show ¬((splitWs (preprocess s2)).toFinset = ∅ ∧
            (splitWs (preprocess s1)).toFinset = ∅) from fun hc => h1 ⟨hc.2, hc.1⟩)]
      rw [jaccard_symm, charSim_symm]

/-- Helper: the device comparator is order-insensitive. -/
theorem device_symm (b a : Str) : deviceSimilarity b a = deviceSimilarity a b := by
  unfold deviceSimilarity
  by_cases h0 : strip (toLower b) = [] ∨ strip (toLower a) = []
  · rw [if_pos h0, if_pos h0.symm]
  · rw [if_neg h0,
      if_neg (show ¬(strip (toLower a) = [] ∨ strip (toLower b) = []) from
        fun hc => h0 hc.symm)]
    by_cases h1 : strip (toLower b) = strip (toLower a)
    · rw [if_pos h1, if_pos h1.symm]
    · rw [if_neg h1,
        if_neg (show ¬(strip (toLower a) = strip (toLower b)) from
          fun hc => h1 hc.symm)]
      rw [deviceMapLoop_symm]
      cases hm : deviceMapLoop deviceMappings (strip (toLower a)) (strip (toLower b)) with
      | some v => rfl
      | none =>
        simp only []
        rw [advStr_symm]

/-- Helper: pointwise flag-equality counting is order-insensitive. -/
theorem iteNatEq_symm {α : Type} [DecidableEq α] (x y : α) :
    (if x = y then (1 : ℕ) else 0) = if y = x then 1 else 0 := by
  by_cases h : x = y
  · rw [if_pos h, if_pos h.symm]
  · rw [if_neg h, if_neg (fun hc => h hc.symm)]

/-- Helper: the boolean-flag match count is symmetric. -/
theorem boolMatches_symm (b a : UAComponents) : boolMatches b a = boolMatches a b := by
  unfold boolMatches
  rw [iteNatEq_symm b.webkit a.webkit, iteNatEq_symm b.mobile a.mobile,
    iteNatEq_symm b.iphone a.iphone, iteNatEq_symm b.android a.android,
    iteNatEq_symm b.safari a.safari, iteNatEq_symm b.chrome a.chrome]

/-- Helper: the comparable-version count is symmetric. -/
theorem versionTotal_symm (b a : UAComponents) :
    versionTotal b a = versionTotal a b := by
  obtain ⟨w1, m1, i1, an1, s1, c1, iv1, av1⟩ := b
  obtain ⟨w2, m2, i2, an2, s2, c2, iv2, av2⟩ := a
  unfold versionTotal
  cases iv1 <;> cases iv2 <;> cases av1 <;> cases av2 <;> rfl

/-- Helper: the matching-version count is symmetric. -/
theorem versionMatches_symm (b a : UAComponents) :
    versionMatches b a = versionMatches a b := by
  obtain ⟨w1, m1, i1, an1, s1, c1, iv1, av1⟩ := b
  obtain ⟨w2, m2, i2, an2, s2, c2, iv2, av2⟩ := a
  unfold versionMatches
  cases iv1 <;> cases iv2 <;> cases av1 <;> cases av2 <;> simp only [] <;>
    first
    | rfl
    | (congr 1 <;> first | rfl | exact iteNatEq_symm _ _)

/-- Helper: the user-agent comparator is order-insensitive. -/
theorem ua_symm (b a : Str) :
    userAgentSimilarity b a = userAgentSimilarity a b := by
  unfold userAgentSimilarity
  by_cases h0 : toLower b = [] ∨ toLower a = []
  · rw [if_pos h0, if_pos h0.symm]
  · rw [if_neg h0,
      if_neg (show ¬(toLower a = [] ∨ toLower b = []) from fun hc => h0 hc.symm)]
    rw [boolMatches_symm (extractUAComponents (toLower b)) (extractUAComponents (toLower a)),
      versionMatches_symm (extractUAComponents (toLower b)) (extractUAComponents (toLower a)),
      versionTotal_symm (extractUAComponents (toLower b)) (extractUAComponents (toLower a))]

/-- C9: each of the five feature comparators is order-insensitive:
swapping candidate and query values never changes the score, so argument
order influences the final score only through the temporal model. -/
theorem comparators_symmetric :
    (∀ b a : Str, timezoneSimilarity b a = timezoneSimilarity a b) ∧
    (∀ b a : Str, screenSimilarity b a = screenSimilarity a b) ∧
    (∀ b a : Str, languageSimilarity b a = languageSimilarity a b) ∧
    (∀ b a : Str, deviceSimilarity b a = deviceSimilarity a b) ∧
    (∀ b a : Str, userAgentSimilarity b a = userAgentSimilarity a b) :=
  ⟨timezone_symm, screen_symm, language_symm, device_symm, ua_symm⟩

/-- C6 (counterexample): starting from a valid weight vector (sum 1) and
ten qualifying history rows whose breakdowns lack the user-agent
component, adaptation does update the weights, yet the resulting vector
sums to 1.008: the 0.8/0.2 smoothing of a proposal missing one feature
drifts the sum by +0.2×(old weight of the missing feature), and
`update_weights` renormalises only beyond a 0.01 tolerance. -/
theorem weight_adaptation_sum_counterexample :
    optimizeAlgorithmWeights
        [("timezone".data, 2/5), ("screen_dimensions".data, 1/4),
         ("language".data, 19/100), ("device_model".data, 3/25),
         ("user_agent_similarity".data, 1/25)]
        (List.replicate 10
          ⟨some [("timezone".data, 1), ("screen".data, 1), ("language".data, 1),
            ("device".data, 1)], 4/5⟩) ≠
      [("timezone".data, 2/5), ("screen_dimensions".data, 1/4),
       ("language".data, 19/100), ("device_model".data, 3/25),
       ("user_agent_similarity".data, 1/25)] ∧
    sumW (optimizeAlgorithmWeights
        [("timezone".data, 2/5), ("screen_dimensions".data, 1/4),
         ("language".data, 19/100), ("device_model".data, 3/25),
         ("user_agent_similarity".data, 1/25)]
        (List.replicate 10
          ⟨some [("timezone".data, 1), ("screen".data, 1), ("language".data, 1),
            ("device".data, 1)], 4/5⟩)) = 126/125 ∧
    ¬ |sumW (optimizeAlgorithmWeights
        [("timezone".data, 2/5), ("screen_dimensions".data, 1/4),
         ("language".data, 19/100), ("device_model".data, 3/25),
         ("user_agent_similarity".data, 1/25)]
        (List.replicate 10
          ⟨some [("timezone".data, 1), ("screen".data, 1), ("language".data, 1),
            ("device".data, 1)], 4/5⟩)) - 1| ≤ 1/1000000 := by
  decide

/-- Helper: on a dict with distinct keys, looking up the key of an entry
in the value-mapped dict returns that entry's mapped value. -/
theorem lookupD_map_self (f : Str × ℚ → ℚ) :
    ∀ (w : List (Str × ℚ)), (w.map (fun p => p.1)).Nodup →
      ∀ p ∈ w, lookupD (w.map (fun q => (q.1, f q))) p.1 = some (f p) := by
  intro w
  induction w with
  | nil => intro _ p hp; exact absurd hp (List.not_mem_nil p)
  | cons q t ih =>
    intro hnd p hp
    rw [List.map_cons] at hnd ⊢
    rcases List.mem_cons.mp hp with rfl | hpt
    · unfold lookupD
      rw [List.find?_cons_of_pos _ (by simp)]
      rfl
    · have hne : ¬(q.1 = p.1) := by
        intro he
        exact (List.nodup_cons.mp hnd).1 (he ▸ List.mem_map_of_mem (fun r => r.1) hpt)
      unfold lookupD
      rw [List.find?_cons_of_neg _ (by simpa using hne)]
      exact ih (List.nodup_cons.mp hnd).2 p hpt

/-- Helper: `dict.update` with a value-remapped copy of itself is that
copy (keys coincide, so nothing is appended and every entry is
overwritten). -/
theorem dictUpdate_map_self (w : List (Str × ℚ)) (f : Str × ℚ → ℚ)
    (hnd : (w.map (fun p => p.1)).Nodup) :
    dictUpdate w (w.map (fun q => (q.1, f q))) = w.map (fun q => (q.1, f q)) := by
  unfold dictUpdate
  have hmap : w.map (fun p =>
      match lookupD (w.map (fun q => (q.1, f q))) p.1 with
      | some v => (p.1, v)
      | none => p) = w.map (fun q => (q.1, f q)) := by
    apply List.map_congr_left
    intro p hp
    rw [lookupD_map_self f w hnd p hp]
  have hfil : (w.map (fun q => (q.1, f q))).filter
      (fun p => !(w.any (fun q => q.1 = p.1))) = [] := by
    rw [List.filter_eq_nil_iff]
    intro p hp
    rcases List.mem_map.mp hp with ⟨q, hq, rfl⟩
    simp only [Bool.not_eq_true', Bool.not_eq_false]
    exact List.any_eq_true.mpr ⟨q, hq, by simp⟩
  rw [hmap, hfil, List.append_nil]

/-- Helper: the value sum of a value-remapped dict. -/
theorem sumW_map_value (w : List (Str × ℚ)) (f : Str × ℚ → ℚ) :
    sumW (w.map (fun q => (q.1, f q))) = (w.map f).sum := by
  unfold sumW
  rw [List.map_map]
  rfl

/-- Helper: summing a list divided pointwise. -/
theorem sum_map_div (l : List ℚ) (T : ℚ) :
    (l.map (fun x => x / T)).sum = l.sum / T := by
  induction l with
  | nil => simp
  | cons x t ih => simp [ih, add_div]

/-- C6 (amended): with fewer than 10 qualifying rows adaptation leaves
the weight vector untouched; and whenever it runs on a valid vector
(distinct keys, sum 1), the resulting vector sums to 1.0 within ±0.01 —
exactly 1.0 when the post-smoothing drift exceeds `update_weights`'
0.01 renormalisation tolerance, and within the tolerance otherwise; the
±1e-6 bound of the original claim does not hold in general. -/
theorem weight_adaptation_amended (w : List (Str × ℚ)) (rows : List HistRow)
    (hnd : (w.map (fun p => p.1)).Nodup) (hsum : sumW w = 1) :
    (rows.length < 10 → optimizeAlgorithmWeights w rows = w) ∧
    |sumW (optimizeAlgorithmWeights w rows) - 1| ≤ 1/100 := by
  constructor
  · intro hlen
    unfold optimizeAlgorithmWeights
    rw [if_pos hlen]
  · unfold optimizeAlgorithmWeights
    by_cases hlen : rows.length < 10
    · rw [if_pos hlen, hsum]; norm_num
    · rw [if_neg hlen]
      by_cases hT : 0 < (proposedWeights w (collectPerf rows)).2
      · rw [if_pos hT]
        have hupd : w.map (fun p =>
            match
              lookupD
                ((proposedWeights w (collectPerf rows)).1.map
                  (fun q => (q.1, q.2 / (proposedWeights w (collectPerf rows)).2)))
                p.1
            with
            | some nv => (p.1, 4/5 * p.2 + 1/5 * nv)
            | none => p) =
            w.map (fun q => (q.1,
              match
                lookupD
                  ((proposedWeights w (collectPerf rows)).1.map
                    (fun r => (r.1, r.2 / (proposedWeights w (collectPerf rows)).2)))
                  q.1
              with
              | some nv => 4/5 * q.2 + 1/5 * nv
              | none => q.2)) := by
          apply List.map_congr_left
          intro p _
          cases lookupD
              ((proposedWeights w (collectPerf rows)).1.map
                (fun r => (r.1, r.2 / (proposedWeights w (collectPerf rows)).2)))
              p.1 with
          | none => rfl
          | some nv => rfl
        rw [hupd]
        unfold updateWeights
        by_cases hgt : |sumW (w.map (fun q => (q.1,
            match
              lookupD
                ((proposedWeights w (collectPerf rows)).1.map
                  (fun r => (r.1, r.2 / (proposedWeights w (collectPerf rows)).2)))
                q.1
            with
            | some nv => 4/5 * q.2 + 1/5 * nv
            | none => q.2))) - 1| > 1/100
        · rw [if_pos hgt]
          by_cases hz : sumW (w.map (fun q => (q.1,
              match
                lookupD
                  ((proposedWeights w (collectPerf rows)).1.map
                    (fun r => (r.1, r.2 / (proposedWeights w (collectPerf rows)).2)))
                  q.1
              with
              | some nv => 4/5 * q.2 + 1/5 * nv
              | none => q.2))) = 0
          · rw [if_pos hz, hsum]; norm_num
          · rw [if_neg hz]
            rw [List.map_map]
            have hcomp :
                ((fun p : Str × ℚ => (p.1, p.2 / sumW (w.map (fun q => (q.1,
                    match
                      lookupD
                        ((proposedWeights w (collectPerf rows)).1.map
                          (fun r => (r.1, r.2 / (proposedWeights w (collectPerf rows)).2)))
                        q.1
                    with
                    | some nv => 4/5 * q.2 + 1/5 * nv
                    | none => q.2))))) ∘
                  (fun q : Str × ℚ => (q.1,
                    match
                      lookupD
                        ((proposedWeights w (collectPerf rows)).1.map
                          (fun r => (r.1, r.2 / (proposedWeights w (collectPerf rows)).2)))
                        q.1
                    with
                    | some nv => 4/5 * q.2 + 1/5 * nv
                    | none => q.2))) =
                fun q : Str × ℚ => (q.1,
                  (match
                    lookupD
                      ((proposedWeights w (collectPerf rows)).1.map
                        (fun r => (r.1, r.2 / (proposedWeights w (collectPerf rows)).2)))
                      q.1
                  with
                  | some nv => 4/5 * q.2 + 1/5 * nv
                  | none => q.2) / sumW (w.map (fun q => (q.1,
                    match
                      lookupD
                        ((proposedWeights w (collectPerf rows)).1.map
                          (fun r => (r.1, r.2 / (proposedWeights w (collectPerf rows)).2)))
                        q.1
                    with
                    | some nv => 4/5 * q.2 + 1/5 * nv
                    | none => q.2)))) := rfl
            rw [hcomp, dictUpdate_map_self w _ hnd, sumW_map_value]
            have hmm : w.map (fun q : Str × ℚ =>
                (match
                  lookupD
                    ((proposedWeights w (collectPerf rows)).1.map
                      (fun r => (r.1, r.2 / (proposedWeights w (collectPerf rows)).2)))
                    q.1
                with
                | some nv => 4/5 * q.2 + 1/5 * nv
                | none => q.2) / sumW (w.map (fun q => (q.1,
                  match
                    lookupD
                      ((proposedWeights w (collectPerf rows)).1.map
                        (fun r => (r.1, r.2 / (proposedWeights w (collectPerf rows)).2)))
                      q.1
                  with
                  | some nv => 4/5 * q.2 + 1/5 * nv
                  | none => q.2)))) =
                (w.map (fun q : Str × ℚ =>
                  match
                    lookupD
                      ((proposedWeights w (collectPerf rows)).1.map
                        (fun r => (r.1, r.2 / (proposedWeights w (collectPerf rows)).2)))
                      q.1
                  with
                  | some nv => 4/5 * q.2 + 1/5 * nv
                  | none => q.2)).map
                  (fun x => x / sumW (w.map (fun q => (q.1,
                    match
                      lookupD
                        ((proposedWeights w (collectPerf rows)).1.map
                          (fun r => (r.1, r.2 / (proposedWeights w (collectPerf rows)).2)))
                        q.1
                    with
                    | some nv => 4/5 * q.2 + 1/5 * nv
                    | none => q.2)))) := by
              rw [List.map_map]
              rfl
            rw [hmm, sum_map_div, ← sumW_map_value]
            rw [div_self hz]
            norm_num
        · rw [if_neg hgt, dictUpdate_map_self w _ hnd]
          exact le_of_not_lt hgt
      · rw [if_neg hT, hsum]; norm_num

/-- C6 witness: on the default weight vector with an empty history the
adaptation is a no-op whose sum stays within the tolerance. -/
theorem weight_adaptation_amended_witness :
    optimizeAlgorithmWeights defaultWeights [] = defaultWeights ∧
    |sumW (optimizeAlgorithmWeights defaultWeights []) - 1| ≤ 1/100 :=
  ⟨(weight_adaptation_amended defaultWeights [] (by decide) (by decide)).1 (by decide),
   (weight_adaptation_amended defaultWeights [] (by decide) (by decide)).2⟩

end DeferLink
